import Mathlib

/-!
Shallow embedding of the inventory ledger implemented in
`src/contexts/InventoryContext.tsx` (types from `src/types/inventory.ts`).

Modelling conventions:
* JavaScript numbers holding quantities, stock levels and costs are modelled
  as exact integers (`Int`).
* ISO-8601 timestamp strings (`createdAt`, `updatedAt`, `expirationDate`,
  `purchaseDate`) are modelled as integers ordered like the time values they
  denote; `new Date()` taken during one operation is a single `now` parameter,
  and the day arithmetic of `getExpiringItems` (`cutoffDate.setDate(getDate()
  + days)`) becomes `now + days` in these units.
* `generateId()` results are `String` parameters of the operations.
* The persistence layer (`blink.db`) and authentication (`blink.auth.me()`)
  are external: each operation takes the current user as a parameter and
  records the persistence calls it issues in an explicit `calls` list.  The
  success path of persistence is modelled; a thrown `Error('Item not found')`
  becomes `error = some "Item not found"` with the state unchanged and no
  persistence calls, exactly like the code, which throws before any `await`.
-/

/-- The `InventoryCategory` union type of `src/types/inventory.ts`. -/
inductive InventoryCategory where
  | reagent
  | diluent
  | antibodyConjugate
  | unconjugatedAntibody
  | calibrator
  | reactionKit
  deriving Repr, DecidableEq

/-- The `TransactionType` union type: `'add' | 'remove' | 'adjust' | 'transfer'`. -/
inductive TransactionType where
  | add
  | remove
  | adjust
  | transfer
  deriving Repr, DecidableEq

/-- The `InventoryItem` interface of `src/types/inventory.ts`. Optional
fields (`description?`, `expirationDate?`, ...) are `Option`s. -/
structure InventoryItem where
  id : String
  name : String
  category : InventoryCategory
  description : Option String
  manufacturer : Option String
  catalogNumber : Option String
  lotNumber : Option String
  quantity : Int
  unit : String
  location : Option String
  storageConditions : Option String
  expirationDate : Option Int
  purchaseDate : Option Int
  costPerUnit : Option Int
  supplier : Option String
  minimumStockLevel : Int
  barcode : Option String
  notes : Option String
  userId : String
  createdAt : Int
  updatedAt : Int
  deriving Repr, DecidableEq

/-- The `InventoryTransaction` interface of `src/types/inventory.ts`. -/
structure InventoryTransaction where
  id : String
  itemId : String
  transactionType : TransactionType
  quantityChange : Int
  previousQuantity : Int
  newQuantity : Int
  reason : Option String
  performedBy : String
  userId : String
  createdAt : Int
  deriving Repr, DecidableEq

/-- The argument of `addItem`: `Omit<InventoryItem, 'id' | 'userId' |
'createdAt' | 'updatedAt'>`. -/
structure ItemData where
  name : String
  category : InventoryCategory
  description : Option String
  manufacturer : Option String
  catalogNumber : Option String
  lotNumber : Option String
  quantity : Int
  unit : String
  location : Option String
  storageConditions : Option String
  expirationDate : Option Int
  purchaseDate : Option Int
  costPerUnit : Option Int
  supplier : Option String
  minimumStockLevel : Int
  barcode : Option String
  notes : Option String
  deriving Repr, DecidableEq

/-- The result of `blink.auth.me()`: an id and an optional email. -/
structure AuthUser where
  id : String
  email : Option String
  deriving Repr, DecidableEq

/-- The expression `user.email || user.id` used for `performedBy`. -/
def performedByOf (u : AuthUser) : String :=
  u.email.getD u.id

/-- The `Partial<InventoryItem>` argument of `updateItem`: every field
optional; an absent field leaves the item's field unchanged.  A supplied
`updatedAt` is irrelevant because the code overwrites it with the current
time (`{ ...updates, updatedAt: new Date().toISOString() }`). -/
structure ItemUpdates where
  id : Option String := none
  name : Option String := none
  category : Option InventoryCategory := none
  description : Option (Option String) := none
  manufacturer : Option (Option String) := none
  catalogNumber : Option (Option String) := none
  lotNumber : Option (Option String) := none
  quantity : Option Int := none
  unit : Option String := none
  location : Option (Option String) := none
  storageConditions : Option (Option String) := none
  expirationDate : Option (Option Int) := none
  purchaseDate : Option (Option Int) := none
  costPerUnit : Option (Option Int) := none
  supplier : Option (Option String) := none
  minimumStockLevel : Option Int := none
  barcode : Option (Option String) := none
  notes : Option (Option String) := none
  userId : Option String := none
  createdAt : Option Int := none
  updatedAt : Option Int := none
  deriving Repr, DecidableEq

/-- One call issued to the persistent store (`blink.db`). -/
inductive PersistCall where
  | createItem (item : InventoryItem)
  | updateItemRecord (id : String)
  | deleteItemRecord (id : String)
  | createTransaction (txn : InventoryTransaction)
  deriving Repr, DecidableEq

/-- The in-memory state of `InventoryProvider`: the `items` and
`transactions` React state arrays. -/
structure LedgerState where
  items : List InventoryItem
  transactions : List InventoryTransaction
  deriving Repr, DecidableEq

/-- Outcome of one ledger operation: the error surfaced to the caller (if
any), the in-memory state afterwards, and the persistence calls issued. -/
structure OpResult where
  error : Option String
  state : LedgerState
  calls : List PersistCall
  deriving Repr, DecidableEq

/-- The `newItem` object literal built inside `addItem`: the supplied fields
plus a generated id, the user's id, and the current time as both
`createdAt` and `updatedAt`. -/
def mkItem (d : ItemData) (newId uid : String) (now : Int) : InventoryItem :=
  { id := newId
    name := d.name
    category := d.category
    description := d.description
    manufacturer := d.manufacturer
    catalogNumber := d.catalogNumber
    lotNumber := d.lotNumber
    quantity := d.quantity
    unit := d.unit
    location := d.location
    storageConditions := d.storageConditions
    expirationDate := d.expirationDate
    purchaseDate := d.purchaseDate
    costPerUnit := d.costPerUnit
    supplier := d.supplier
    minimumStockLevel := d.minimumStockLevel
    barcode := d.barcode
    notes := d.notes
    userId := uid
    createdAt := now
    updatedAt := now }

/-- `addItem` of `InventoryContext.tsx` (lines 98-135): build the new item,
persist it, append it to `items` (`setItems(prev => [...prev, newItem])`),
then build, persist and append the companion transaction with type `'add'`,
`quantityChange = newItem.quantity`, `previousQuantity = 0`,
`newQuantity = newItem.quantity`, reason `'Initial stock'`. -/
def addItem (s : LedgerState) (user : AuthUser) (itemData : ItemData)
    (newId txId : String) (now : Int) : OpResult :=
  let newItem := mkItem itemData newId user.id now
  let txn : InventoryTransaction :=
    { id := txId
      itemId := newItem.id
      transactionType := .add
      quantityChange := newItem.quantity
      previousQuantity := 0
      newQuantity := newItem.quantity
      reason := some "Initial stock"
      performedBy := performedByOf user
      userId := user.id
      createdAt := now }
  { error := none
    state :=
      { items := s.items ++ [newItem]
        transactions := s.transactions ++ [txn] }
    calls := [.createItem newItem, .createTransaction txn] }

/-- The merge `{ ...item, ...updatedData }` performed by `updateItem`, where
`updatedData = { ...updates, updatedAt: now }`: each supplied field replaces
the item's field, and `updatedAt` becomes the current time regardless. -/
def applyUpdates (item : InventoryItem) (u : ItemUpdates) (now : Int) :
    InventoryItem :=
  { id := u.id.getD item.id
    name := u.name.getD item.name
    category := u.category.getD item.category
    description := u.description.getD item.description
    manufacturer := u.manufacturer.getD item.manufacturer
    catalogNumber := u.catalogNumber.getD item.catalogNumber
    lotNumber := u.lotNumber.getD item.lotNumber
    quantity := u.quantity.getD item.quantity
    unit := u.unit.getD item.unit
    location := u.location.getD item.location
    storageConditions := u.storageConditions.getD item.storageConditions
    expirationDate := u.expirationDate.getD item.expirationDate
    purchaseDate := u.purchaseDate.getD item.purchaseDate
    costPerUnit := u.costPerUnit.getD item.costPerUnit
    supplier := u.supplier.getD item.supplier
    minimumStockLevel := u.minimumStockLevel.getD item.minimumStockLevel
    barcode := u.barcode.getD item.barcode
    notes := u.notes.getD item.notes
    userId := u.userId.getD item.userId
    createdAt := u.createdAt.getD item.createdAt
    updatedAt := now }

/-- `updateItem` of `InventoryContext.tsx` (lines 137-155): persist the
partial update, then map over `items` replacing every item whose id matches
with the merged record; no transaction is created. -/
def updateItem (s : LedgerState) (id : String) (updates : ItemUpdates)
    (now : Int) : OpResult :=
  { error := none
    state :=
      { items := s.items.map fun item =>
          if item.id == id then applyUpdates item updates now else item
        transactions := s.transactions }
    calls := [.updateItemRecord id] }

/-- `deleteItem` of `InventoryContext.tsx` (lines 157-189): find the item
(throw `'Item not found'` if absent), delete it from persistence, filter it
out of `items`, then persist and append a transaction with type `'remove'`,
`quantityChange = -item.quantity`, `previousQuantity = item.quantity`,
`newQuantity = 0`, reason `'Item deleted'`. -/
def deleteItem (s : LedgerState) (user : AuthUser) (id txId : String)
    (now : Int) : OpResult :=
  match s.items.find? (fun i => i.id == id) with
  | none => { error := some "Item not found", state := s, calls := [] }
  | some item =>
    let txn : InventoryTransaction :=
      { id := txId
        itemId := id
        transactionType := .remove
        quantityChange := -item.quantity
        previousQuantity := item.quantity
        newQuantity := 0
        reason := some "Item deleted"
        performedBy := performedByOf user
        userId := user.id
        createdAt := now }
    { error := none
      state :=
        { items := s.items.filter fun i => i.id != id
          transactions := s.transactions ++ [txn] }
      calls := [.deleteItemRecord id, .createTransaction txn] }

/-- `updateQuantity` of `InventoryContext.tsx` (lines 191-238), the spec's
`setQuantity`: find the item (throw `'Item not found'` if absent), compute
`quantityChange = newQuantity - previousQuantity`, persist and apply
`quantity := newQuantity, updatedAt := now` to the matching items, derive
the transaction type from the sign of `quantityChange`, then persist and
append the transaction.  The `reason` parameter defaults to
`'Manual adjustment'`, modelled by an `Option` with `getD`. -/
def updateQuantity (s : LedgerState) (user : AuthUser) (id : String)
    (newQuantity : Int) (reason : Option String) (txId : String)
    (now : Int) : OpResult :=
  match s.items.find? (fun i => i.id == id) with
  | none => { error := some "Item not found", state := s, calls := [] }
  | some item =>
    let previousQuantity := item.quantity
    let quantityChange := newQuantity - previousQuantity
    let transactionType : TransactionType :=
      if quantityChange > 0 then .add
      else if quantityChange < 0 then .remove
      else .adjust
    let txn : InventoryTransaction :=
      { id := txId
        itemId := id
        transactionType := transactionType
        quantityChange := quantityChange
        previousQuantity := previousQuantity
        newQuantity := newQuantity
        reason := some (reason.getD "Manual adjustment")
        performedBy := performedByOf user
        userId := user.id
        createdAt := now }
    { error := none
      state :=
        { items := s.items.map fun it =>
            if it.id == id then { it with quantity := newQuantity, updatedAt := now }
            else it
          transactions := s.transactions ++ [txn] }
      calls := [.updateItemRecord id, .createTransaction txn] }

/-- `getItemById` of `InventoryContext.tsx` (lines 240-242):
`items.find(item => item.id === id)`. -/
def getItemById (s : LedgerState) (id : String) : Option InventoryItem :=
  s.items.find? fun item => item.id == id

/-- `getLowStockItems` of `InventoryContext.tsx` (lines 244-246):
`items.filter(item => item.quantity <= item.minimumStockLevel)`. -/
def getLowStockItems (s : LedgerState) : List InventoryItem :=
  s.items.filter fun item => decide (item.quantity ≤ item.minimumStockLevel)

/-- `getExpiringItems` of `InventoryContext.tsx` (lines 248-257): with
`cutoffDate = now + days`, keep the items with a defined expiration date
`≤ cutoffDate`; items without one are dropped (`if (!item.expirationDate)
return false`). -/
def getExpiringItems (s : LedgerState) (now : Int) (days : Int := 30) :
    List InventoryItem :=
  let cutoffDate := now + days
  s.items.filter fun item =>
    match item.expirationDate with
    | none => false
    | some expDate => decide (expDate ≤ cutoffDate)

/-- `loadInventoryData` of `InventoryContext.tsx` (lines 41-70), success
path: the store returns the user's items ordered by `createdAt` descending
and the user's transactions ordered by `createdAt` descending limited to
100; both replace the in-memory state.  The store's `orderBy`/`limit`
contract is modelled by sorting and truncating the persisted lists here. -/
def loadInventoryData (persistedItems : List InventoryItem)
    (persistedTransactions : List InventoryTransaction) : LedgerState :=
  { items :=
      persistedItems.mergeSort fun a b => decide (b.createdAt ≤ a.createdAt)
    transactions :=
      (persistedTransactions.mergeSort fun a b =>
        decide (b.createdAt ≤ a.createdAt)).take 100 }

/-- One call at the ledger interface, with all the data the operation
consumes (acting user, generated ids, clock reading). -/
inductive LedgerOp where
  | add (user : AuthUser) (d : ItemData) (newId txId : String) (now : Int)
  | update (id : String) (updates : ItemUpdates) (now : Int)
  | delete (user : AuthUser) (id txId : String) (now : Int)
  | setQty (user : AuthUser) (id : String) (newQuantity : Int)
      (reason : Option String) (txId : String) (now : Int)

/-- The state after one ledger operation (errors leave the state as the
operations themselves do). -/
def applyOp (s : LedgerState) : LedgerOp → LedgerState
  | .add user d newId txId now => (addItem s user d newId txId now).state
  | .update id updates now => (updateItem s id updates now).state
  | .delete user id txId now => (deleteItem s user id txId now).state
  | .setQty user id q reason txId now =>
      (updateQuantity s user id q reason txId now).state

/-- The state after a sequence of ledger operations. -/
def runOps (s : LedgerState) (ops : List LedgerOp) : LedgerState :=
  ops.foldl applyOp s

/-- Every item of the state has non-negative quantity and minimum stock
level. -/
abbrev NonNegItems (s : LedgerState) : Prop :=
  ∀ i ∈ s.items, 0 ≤ i.quantity ∧ 0 ≤ i.minimumStockLevel

/-- The quantities and stock levels an operation supplies are non-negative
(always true of `delete`, which supplies none). -/
def GoodOp : LedgerOp → Prop
  | .add _ d _ _ _ => 0 ≤ d.quantity ∧ 0 ≤ d.minimumStockLevel
  | .update _ u _ => 0 ≤ u.quantity.getD 0 ∧ 0 ≤ u.minimumStockLevel.getD 0
  | .delete _ _ _ _ => True
  | .setQty _ _ q _ _ _ => 0 ≤ q

instance : DecidablePred GoodOp := fun op =>
  match op with
  | .add _ d _ _ _ =>
      inferInstanceAs (Decidable (0 ≤ d.quantity ∧ 0 ≤ d.minimumStockLevel))
  | .update _ u _ =>
      inferInstanceAs
        (Decidable (0 ≤ u.quantity.getD 0 ∧ 0 ≤ u.minimumStockLevel.getD 0))
  | .delete _ _ _ _ => inferInstanceAs (Decidable True)
  | .setQty _ _ q _ _ _ => inferInstanceAs (Decidable (0 ≤ q))

/-- The list is ordered most-recently-created first. -/
abbrev NewestFirstItems (l : List InventoryItem) : Prop :=
  l.Pairwise fun a b => b.createdAt ≤ a.createdAt

/-- The list is ordered most-recent first. -/
abbrev NewestFirstTransactions (l : List InventoryTransaction) : Prop :=
  l.Pairwise fun a b => b.createdAt ≤ a.createdAt

/-- A sample authenticated user for concrete witnesses. -/
def sampleUser : AuthUser :=
  { id := "u1", email := some "user@lab.example" }

/-- A sample item matching the spec's running example: quantity 50, minimum
stock level 10. -/
def sampleItem : InventoryItem :=
  { id := "a"
    name := "Tris Buffer"
    category := .reagent
    description := none
    manufacturer := none
    catalogNumber := none
    lotNumber := none
    quantity := 50
    unit := "mL"
    location := none
    storageConditions := none
    expirationDate := some 10
    purchaseDate := none
    costPerUnit := none
    supplier := none
    minimumStockLevel := 10
    barcode := none
    notes := none
    userId := "u1"
    createdAt := 1
    updatedAt := 1 }

/-- The transaction that `addItem` would have recorded for `sampleItem`. -/
def sampleTxn : InventoryTransaction :=
  { id := "t1"
    itemId := "a"
    transactionType := .add
    quantityChange := 50
    previousQuantity := 0
    newQuantity := 50
    reason := some "Initial stock"
    performedBy := "user@lab.example"
    userId := "u1"
    createdAt := 1 }

/-- A sample ledger state holding `sampleItem` and `sampleTxn`. -/
def sampleState : LedgerState :=
  { items := [sampleItem], transactions := [sampleTxn] }

/-- Sample fields for a new item. -/
def sampleData : ItemData :=
  { name := "PBS"
    category := .diluent
    description := none
    manufacturer := none
    catalogNumber := none
    lotNumber := none
    quantity := 5
    unit := "mL"
    location := none
    storageConditions := none
    expirationDate := none
    purchaseDate := none
    costPerUnit := none
    supplier := none
    minimumStockLevel := 2
    barcode := none
    notes := none }

/-- A sample partial update renaming the item. -/
def sampleUpdates : ItemUpdates :=
  { name := some "Tris Buffer pH 8" }

/-- C1: every successful quantity-changing operation (`addItem`,
`deleteItem`, `updateQuantity`) appends exactly one new transaction to the
transaction collection, keeping every existing entry verbatim, and
`updateItem` leaves the collection unchanged: the in-memory log is
append-only. -/
theorem claim_C1 (s : LedgerState) (user : AuthUser) (d : ItemData)
    (updates : ItemUpdates) (id newId txId : String) (reason : Option String)
    (q now : Int)
    (hdel : (deleteItem s user id txId now).error = none)
    (hqty : (updateQuantity s user id q reason txId now).error = none) :
    (∃ t, (addItem s user d newId txId now).state.transactions
        = s.transactions ++ [t]) ∧
    (∃ t, (deleteItem s user id txId now).state.transactions
        = s.transactions ++ [t]) ∧
    (∃ t, (updateQuantity s user id q reason txId now).state.transactions
        = s.transactions ++ [t]) ∧
    (updateItem s id updates now).state.transactions = s.transactions := by
  refine ⟨⟨_, rfl⟩, ?_, ?_, rfl⟩
  · cases hfind : s.items.find? (fun i => i.id == id) with
    | none => simp [deleteItem, hfind] at hdel
    | some item =>
      refine ⟨{ id := txId, itemId := id, transactionType := .remove
                quantityChange := -item.quantity
                previousQuantity := item.quantity, newQuantity := 0
                reason := some "Item deleted"
                performedBy := performedByOf user, userId := user.id
                createdAt := now }, ?_⟩
      simp [deleteItem, hfind]
  · cases hfind : s.items.find? (fun i => i.id == id) with
    | none => simp [updateQuantity, hfind] at hqty
    | some item =>
      refine ⟨{ id := txId, itemId := id
                transactionType :=
                  if item.quantity < q then .add
                  else if q < item.quantity then .remove
                  else .adjust
                quantityChange := q - item.quantity
                previousQuantity := item.quantity, newQuantity := q
                reason := some (reason.getD "Manual adjustment")
                performedBy := performedByOf user, userId := user.id
                createdAt := now }, ?_⟩
      simp [updateQuantity, hfind]

/-- Witness for C1 at `sampleState`, which holds the item `"a"`. -/
theorem claim_C1_witness :
    (∃ t, (addItem sampleState sampleUser sampleData "b" "t2" 5).state.transactions
        = sampleState.transactions ++ [t]) ∧
    (∃ t, (deleteItem sampleState sampleUser "a" "t2" 5).state.transactions
        = sampleState.transactions ++ [t]) ∧
    (∃ t, (updateQuantity sampleState sampleUser "a" 7 none "t2" 5).state.transactions
        = sampleState.transactions ++ [t]) ∧
    (updateItem sampleState "a" sampleUpdates 5).state.transactions
        = sampleState.transactions :=
  claim_C1 sampleState sampleUser sampleData sampleUpdates "a" "b" "t2" none 7 5
    (by decide) (by decide)

/-- C2: every transaction in the collection after `addItem`, `deleteItem` or
`updateQuantity` either was already present or satisfies
`newQuantity = previousQuantity + quantityChange`; since these are the only
operations creating transactions, every created transaction satisfies the
equation. -/
theorem claim_C2 (s : LedgerState) (user : AuthUser) (d : ItemData)
    (id newId txId : String) (reason : Option String) (q now : Int) :
    (∀ t ∈ (addItem s user d newId txId now).state.transactions,
      t ∈ s.transactions ∨
        t.newQuantity = t.previousQuantity + t.quantityChange) ∧
    (∀ t ∈ (deleteItem s user id txId now).state.transactions,
      t ∈ s.transactions ∨
        t.newQuantity = t.previousQuantity + t.quantityChange) ∧
    (∀ t ∈ (updateQuantity s user id q reason txId now).state.transactions,
      t ∈ s.transactions ∨
        t.newQuantity = t.previousQuantity + t.quantityChange) := by
  refine ⟨?_, ?_, ?_⟩
  · intro t ht
    rcases List.mem_append.mp ht with h | h
    · exact Or.inl h
    · right
      rw [List.mem_singleton] at h
      subst h
      show d.quantity = 0 + d.quantity
      omega
  · intro t ht
    cases hfind : s.items.find? (fun i => i.id == id) with
    | none =>
      simp only [deleteItem, hfind] at ht
      exact Or.inl ht
    | some item =>
      simp only [deleteItem, hfind] at ht
      rcases List.mem_append.mp ht with h | h
      · exact Or.inl h
      · right
        rw [List.mem_singleton] at h
        subst h
        show (0 : Int) = item.quantity + -item.quantity
        omega
  · intro t ht
    cases hfind : s.items.find? (fun i => i.id == id) with
    | none =>
      simp only [updateQuantity, hfind] at ht
      exact Or.inl ht
    | some item =>
      simp only [updateQuantity, hfind] at ht
      rcases List.mem_append.mp ht with h | h
      · exact Or.inl h
      · right
        rw [List.mem_singleton] at h
        subst h
        show q = item.quantity + (q - item.quantity)
        omega

/-- Witness for C2: the pre-existing `sampleTxn` survives `addItem`, and the
conclusion holds for it. -/
theorem claim_C2_witness :
    sampleTxn ∈ sampleState.transactions ∨
      sampleTxn.newQuantity
        = sampleTxn.previousQuantity + sampleTxn.quantityChange :=
  (claim_C2 sampleState sampleUser sampleData "a" "b" "t2" none 7 5).1
    sampleTxn (by decide)

/-- C5: when no item with the given id is in memory, `deleteItem` and
`updateQuantity` fail with the not-found error, leave the state unchanged,
and issue no persistence call. -/
theorem claim_C5 (s : LedgerState) (user : AuthUser) (id txId : String)
    (reason : Option String) (q now : Int)
    (habsent : s.items.find? (fun i => i.id == id) = none) :
    (deleteItem s user id txId now).error = some "Item not found" ∧
    (deleteItem s user id txId now).state = s ∧
    (deleteItem s user id txId now).calls = [] ∧
    (updateQuantity s user id q reason txId now).error
        = some "Item not found" ∧
    (updateQuantity s user id q reason txId now).state = s ∧
    (updateQuantity s user id q reason txId now).calls = [] := by
  simp [deleteItem, updateQuantity, habsent]

/-- Witness for C5 at `sampleState` with the absent id `"zzz"`. -/
theorem claim_C5_witness :
    (deleteItem sampleState sampleUser "zzz" "t2" 5).error
        = some "Item not found" ∧
    (deleteItem sampleState sampleUser "zzz" "t2" 5).state = sampleState ∧
    (deleteItem sampleState sampleUser "zzz" "t2" 5).calls = [] ∧
    (updateQuantity sampleState sampleUser "zzz" 7 none "t2" 5).error
        = some "Item not found" ∧
    (updateQuantity sampleState sampleUser "zzz" 7 none "t2" 5).state
        = sampleState ∧
    (updateQuantity sampleState sampleUser "zzz" 7 none "t2" 5).calls = [] :=
  claim_C5 sampleState sampleUser "zzz" "t2" none 7 5 (by decide)

/-- C6: `getLowStockItems` returns exactly the items whose quantity is at
most their minimum stock level: membership is characterised independently of
insertion order. -/
theorem claim_C6 (s : LedgerState) (i : InventoryItem) :
    i ∈ getLowStockItems s ↔
      i ∈ s.items ∧ i.quantity ≤ i.minimumStockLevel := by
  simp [getLowStockItems, List.mem_filter]

/-- C7: `getExpiringItems` returns exactly the items with a defined
expiration date at most `now + days`; items without one are excluded, and
since an already-past date also satisfies the bound (for the non-negative
day windows used), expired items are included.  The second conjunct records
that the `days` argument defaults to 30. -/
theorem claim_C7 (s : LedgerState) (now days : Int) (i : InventoryItem) :
    (i ∈ getExpiringItems s now days ↔
      i ∈ s.items ∧ ∃ d, i.expirationDate = some d ∧ d ≤ now + days) ∧
    getExpiringItems s now = getExpiringItems s now 30 := by
  refine ⟨?_, rfl⟩
  simp only [getExpiringItems, List.mem_filter]
  cases h : i.expirationDate with
  | none => simp [h]
  | some d => simp [h]

/-- C3: when the item exists, `updateQuantity` succeeds and appends one
transaction whose `quantityChange` is the delta, whose type is derived from
the sign of the delta, which records the previous and new quantities and the
given reason (defaulted to `"Manual adjustment"`), while every item bearing
the id gets the new quantity and a refreshed update timestamp. -/
theorem claim_C3 (s : LedgerState) (user : AuthUser) (id txId : String)
    (reason : Option String) (q now : Int) (item : InventoryItem)
    (hfind : s.items.find? (fun i => i.id == id) = some item) :
    (updateQuantity s user id q reason txId now).error = none ∧
    (∃ t, (updateQuantity s user id q reason txId now).state.transactions
        = s.transactions ++ [t] ∧
      t.quantityChange = q - item.quantity ∧
      t.transactionType =
        (if q - item.quantity > 0 then .add
         else if q - item.quantity < 0 then .remove
         else .adjust) ∧
      t.previousQuantity = item.quantity ∧
      t.newQuantity = q ∧
      t.reason = some (reason.getD "Manual adjustment")) ∧
    { item with quantity := q, updatedAt := now }
        ∈ (updateQuantity s user id q reason txId now).state.items ∧
    (∀ it ∈ (updateQuantity s user id q reason txId now).state.items,
      it.id = id → it.quantity = q ∧ it.updatedAt = now) := by
  refine ⟨by simp [updateQuantity, hfind], ?_, ?_, ?_⟩
  · refine ⟨{ id := txId, itemId := id
              transactionType :=
                if q - item.quantity > 0 then .add
                else if q - item.quantity < 0 then .remove
                else .adjust
              quantityChange := q - item.quantity
              previousQuantity := item.quantity, newQuantity := q
              reason := some (reason.getD "Manual adjustment")
              performedBy := performedByOf user, userId := user.id
              createdAt := now }, ?_, rfl, rfl, rfl, rfl, rfl⟩
    simp [updateQuantity, hfind]
  · have hmem := List.mem_of_find?_eq_some hfind
    have hbeq := List.find?_some hfind
    simp only [updateQuantity, hfind]
    exact List.mem_map.mpr ⟨item, hmem, by simp [hbeq]⟩
  · intro it hit
    simp only [updateQuantity, hfind] at hit
    rcases List.mem_map.mp hit with ⟨it0, _, rfl⟩
    intro hid
    by_cases h : it0.id == id
    · simp [h]
    · simp [h] at hid
      exact absurd (by simp [hid]) h

/-- Witness for C3: the spec's running example, `setQuantity("a", 5, "used")`
on an item with quantity 50. -/
theorem claim_C3_witness :
    (updateQuantity sampleState sampleUser "a" 5 (some "used") "t2" 9).error
        = none ∧
    (∃ t, (updateQuantity sampleState sampleUser "a" 5 (some "used") "t2"
          9).state.transactions
        = sampleState.transactions ++ [t] ∧
      t.quantityChange = 5 - sampleItem.quantity ∧
      t.transactionType =
        (if 5 - sampleItem.quantity > 0 then .add
         else if 5 - sampleItem.quantity < 0 then .remove
         else .adjust) ∧
      t.previousQuantity = sampleItem.quantity ∧
      t.newQuantity = 5 ∧
      t.reason = some ((some "used").getD "Manual adjustment")) ∧
    { sampleItem with quantity := 5, updatedAt := 9 }
        ∈ (updateQuantity sampleState sampleUser "a" 5 (some "used") "t2"
            9).state.items ∧
    (∀ it ∈ (updateQuantity sampleState sampleUser "a" 5 (some "used") "t2"
        9).state.items,
      it.id = "a" → it.quantity = 5 ∧ it.updatedAt = 9) :=
  claim_C3 sampleState sampleUser "a" "t2" (some "used") 5 9 sampleItem
    (by decide)

/-- C9: after `addItem` with an id not already used by any stored item,
`getItemById` at the new id returns an item carrying exactly the supplied
descriptive and quantitative fields, the generated id, the acting user's id,
and equal creation and update timestamps. -/
theorem claim_C9 (s : LedgerState) (user : AuthUser) (d : ItemData)
    (newId txId : String) (now : Int)
    (hfresh : ∀ i ∈ s.items, i.id ≠ newId) :
    ∃ it, getItemById (addItem s user d newId txId now).state newId = some it ∧
      it.name = d.name ∧ it.category = d.category ∧
      it.description = d.description ∧ it.manufacturer = d.manufacturer ∧
      it.catalogNumber = d.catalogNumber ∧ it.lotNumber = d.lotNumber ∧
      it.quantity = d.quantity ∧ it.unit = d.unit ∧
      it.location = d.location ∧
      it.storageConditions = d.storageConditions ∧
      it.expirationDate = d.expirationDate ∧
      it.purchaseDate = d.purchaseDate ∧
      it.costPerUnit = d.costPerUnit ∧ it.supplier = d.supplier ∧
      it.minimumStockLevel = d.minimumStockLevel ∧
      it.barcode = d.barcode ∧ it.notes = d.notes ∧
      it.id = newId ∧ it.userId = user.id ∧
      it.createdAt = now ∧ it.updatedAt = now ∧
      it.createdAt = it.updatedAt := by
  have hnone : s.items.find? (fun item => item.id == newId) = none := by
    rw [List.find?_eq_none]
    intro i hi
    simpa using hfresh i hi
  refine ⟨mkItem d newId user.id now, ?_, by simp [mkItem]⟩
  show (s.items ++ [mkItem d newId user.id now]).find?
      (fun item => item.id == newId) = some (mkItem d newId user.id now)
  rw [List.find?_append, hnone]
  simp [mkItem]

/-- Witness for C9: adding an item with fresh id `"b"` to `sampleState` and
looking it up. -/
theorem claim_C9_witness :
    ∃ it, getItemById (addItem sampleState sampleUser sampleData "b" "t2"
          5).state "b" = some it ∧
      it.name = sampleData.name ∧ it.category = sampleData.category ∧
      it.description = sampleData.description ∧
      it.manufacturer = sampleData.manufacturer ∧
      it.catalogNumber = sampleData.catalogNumber ∧
      it.lotNumber = sampleData.lotNumber ∧
      it.quantity = sampleData.quantity ∧ it.unit = sampleData.unit ∧
      it.location = sampleData.location ∧
      it.storageConditions = sampleData.storageConditions ∧
      it.expirationDate = sampleData.expirationDate ∧
      it.purchaseDate = sampleData.purchaseDate ∧
      it.costPerUnit = sampleData.costPerUnit ∧
      it.supplier = sampleData.supplier ∧
      it.minimumStockLevel = sampleData.minimumStockLevel ∧
      it.barcode = sampleData.barcode ∧ it.notes = sampleData.notes ∧
      it.id = "b" ∧ it.userId = sampleUser.id ∧
      it.createdAt = 5 ∧ it.updatedAt = 5 ∧
      it.createdAt = it.updatedAt :=
  claim_C9 sampleState sampleUser sampleData "b" "t2" 5 (by decide)

/-- C10: `updateItem` creates no transaction, keeps the item count, leaves
every item with a different id untouched at its position, and replaces every
item bearing the id by the merge of the supplied field updates with a
refreshed update timestamp. -/
theorem claim_C10 (s : LedgerState) (id : String) (updates : ItemUpdates)
    (now : Int) :
    (updateItem s id updates now).state.transactions = s.transactions ∧
    (updateItem s id updates now).state.items.length = s.items.length ∧
    (∀ (j : Nat) (it : InventoryItem), s.items[j]? = some it → it.id ≠ id →
      (updateItem s id updates now).state.items[j]? = some it) ∧
    (∀ (j : Nat) (it : InventoryItem), s.items[j]? = some it → it.id = id →
      (updateItem s id updates now).state.items[j]?
          = some (applyUpdates it updates now) ∧
      (applyUpdates it updates now).updatedAt = now) := by
  refine ⟨rfl, by simp [updateItem], ?_, ?_⟩
  · intro j it hj hne
    show (s.items.map fun item =>
        if item.id == id then applyUpdates item updates now else item)[j]?
      = some it
    rw [List.getElem?_map, hj]
    simp [hne]
  · intro j it hj heq
    refine ⟨?_, rfl⟩
    show (s.items.map fun item =>
        if item.id == id then applyUpdates item updates now else item)[j]?
      = some (applyUpdates it updates now)
    rw [List.getElem?_map, hj]
    simp [heq]

/-- Witness for C10 at position 0 of `sampleState`, whose item bears the
updated id `"a"`. -/
theorem claim_C10_witness :
    (updateItem sampleState "a" sampleUpdates 5).state.items[0]?
        = some (applyUpdates sampleItem sampleUpdates 5) ∧
    (applyUpdates sampleItem sampleUpdates 5).updatedAt = 5 :=
  (claim_C10 sampleState "a" sampleUpdates 5).2.2.2 0 sampleItem (by decide)
    (by decide)

/-- The merge of `updateItem` keeps quantity and minimum stock level
non-negative when both the original values and any supplied replacement
values are non-negative. -/
theorem applyUpdates_nonneg {item : InventoryItem} {u : ItemUpdates}
    {now : Int} (hq : 0 ≤ item.quantity) (hm : 0 ≤ item.minimumStockLevel)
    (huq : 0 ≤ u.quantity.getD 0) (hum : 0 ≤ u.minimumStockLevel.getD 0) :
    0 ≤ (applyUpdates item u now).quantity ∧
    0 ≤ (applyUpdates item u now).minimumStockLevel := by
  constructor
  · show 0 ≤ u.quantity.getD item.quantity
    cases h : u.quantity with
    | none => simpa using hq
    | some x => rw [h] at huq; simpa using huq
  · show 0 ≤ u.minimumStockLevel.getD item.minimumStockLevel
    cases h : u.minimumStockLevel with
    | none => simpa using hm
    | some x => rw [h] at hum; simpa using hum

/-- Each single ledger operation preserves non-negativity of quantities and
minimum stock levels, provided the values it supplies are non-negative. -/
theorem nonNeg_applyOp {s : LedgerState} {op : LedgerOp}
    (hs : NonNegItems s) (hop : GoodOp op) : NonNegItems (applyOp s op) := by
  cases op with
  | add user d newId txId now =>
    intro i hi
    rcases List.mem_append.mp hi with h | h
    · exact hs i h
    · rw [List.mem_singleton] at h
      subst h
      exact hop
  | update id updates now =>
    intro i hi
    rcases List.mem_map.mp hi with ⟨i0, h0, rfl⟩
    by_cases h : i0.id == id
    · simpa [h] using
        applyUpdates_nonneg (hs i0 h0).1 (hs i0 h0).2 hop.1 hop.2
    · simpa [h] using hs i0 h0
  | delete user id txId now =>
    intro i hi
    cases hfind : s.items.find? (fun x => x.id == id) with
    | none =>
      simp only [applyOp, deleteItem, hfind] at hi
      exact hs i hi
    | some item =>
      simp only [applyOp, deleteItem, hfind] at hi
      exact hs i (List.mem_filter.mp hi).1
  | setQty user id q reason txId now =>
    intro i hi
    cases hfind : s.items.find? (fun x => x.id == id) with
    | none =>
      simp only [applyOp, updateQuantity, hfind] at hi
      exact hs i hi
    | some item =>
      simp only [applyOp, updateQuantity, hfind] at hi
      rcases List.mem_map.mp hi with ⟨i0, h0, rfl⟩
      by_cases h : i0.id == id
      · constructor
        · simpa [h] using hop
        · simpa [h] using (hs i0 h0).2
      · simpa [h] using hs i0 h0

/-- C4 counterexample: the ledger interface accepts a negative target
quantity; `setQuantity("a", -1)` on a state whose only item has quantity 50
leaves an item with quantity `-1`, so the claimed invariant fails. -/
theorem claim_C4_counterexample :
    ¬ ∀ i ∈ (applyOp sampleState
        (.setQty sampleUser "a" (-1) none "t2" 5)).items,
      0 ≤ i.quantity ∧ 0 ≤ i.minimumStockLevel := by
  decide

/-- C4 amended: after any sequence of ledger operations starting from a
state whose items all have non-negative quantity and minimum stock level,
the invariant still holds provided every operation supplies only
non-negative quantities and minimum stock levels (the code itself never
clamps or rejects, so the restriction on arguments is necessary). -/
theorem claim_C4_amended (s : LedgerState) (ops : List LedgerOp)
    (hs : NonNegItems s) (hops : ∀ op ∈ ops, GoodOp op) :
    NonNegItems (runOps s ops) := by
  induction ops generalizing s with
  | nil => exact hs
  | cons op rest ih =>
    exact ih (applyOp s op) (nonNeg_applyOp hs (hops op (by simp)))
      fun o ho => hops o (by simp [ho])

/-- Witness for the amended C4: a set-quantity, an add and a delete with
non-negative arguments keep `sampleState`'s items non-negative. -/
theorem claim_C4_amended_witness :
    NonNegItems (runOps sampleState
      [.setQty sampleUser "a" 5 (some "used") "t2" 9,
       .add sampleUser sampleData "b" "t3" 10,
       .delete sampleUser "a" "t4" 11]) :=
  claim_C4_amended sampleState
    [.setQty sampleUser "a" 5 (some "used") "t2" 9,
     .add sampleUser sampleData "b" "t3" 10,
     .delete sampleUser "a" "t4" 11]
    (by decide) (by decide)

/-- Sorting with the boolean comparison "later key first" produces a list
that is pairwise descending in the key. -/
theorem pairwise_mergeSort_desc {α : Type} (f : α → Int) (l : List α) :
    (l.mergeSort fun a b => decide (f b ≤ f a)).Pairwise
      fun a b => f b ≤ f a := by
  have h : (l.mergeSort fun a b => decide (f b ≤ f a)).Pairwise
      fun a b => (decide (f b ≤ f a)) = true := by
    apply List.sorted_mergeSort
    · intro a b c hab hbc
      simp only [decide_eq_true_eq] at *
      omega
    · intro a b
      simp only [Bool.or_eq_true, decide_eq_true_eq]
      omega
  exact h.imp fun hab => by simpa using hab

/-- C8 counterexample: `addItem` appends the new item and its transaction at
the end of the in-memory arrays (`[...prev, newItem]`), so after adding to a
state holding an older record, neither collection is ordered most-recent
first. -/
theorem claim_C8_counterexample :
    ¬ (NewestFirstItems (applyOp sampleState
          (.add sampleUser sampleData "b" "t2" 99)).items ∧
       NewestFirstTransactions (applyOp sampleState
          (.add sampleUser sampleData "b" "t2" 99)).transactions) := by
  decide

/-- C8 amended: the collections are most-recent first as loaded from
persistence — `loadInventoryData` orders both by `createdAt` descending and
bounds the transactions to the most recent 100 — but each mutation appends
its newly created record at the end of the corresponding array, so the
newest-first ordering is not maintained across mutations. -/
theorem claim_C8_amended (persistedItems : List InventoryItem)
    (persistedTransactions : List InventoryTransaction) (s : LedgerState)
    (user : AuthUser) (d : ItemData) (newId txId : String) (now : Int) :
    NewestFirstItems
      (loadInventoryData persistedItems persistedTransactions).items ∧
    NewestFirstTransactions
      (loadInventoryData persistedItems persistedTransactions).transactions ∧
    (loadInventoryData persistedItems
        persistedTransactions).transactions.length ≤ 100 ∧
    (∃ newIt, (addItem s user d newId txId now).state.items
        = s.items ++ [newIt] ∧ newIt.createdAt = now) ∧
    (∃ t, (addItem s user d newId txId now).state.transactions
        = s.transactions ++ [t] ∧ t.createdAt = now) := by
  refine ⟨?_, ?_, ?_, ⟨_, rfl, rfl⟩, ⟨_, rfl, rfl⟩⟩
  · exact pairwise_mergeSort_desc (fun i => i.createdAt) persistedItems
  · exact (pairwise_mergeSort_desc (fun t => t.createdAt)
      persistedTransactions).sublist (List.take_sublist ..)
  · show ((persistedTransactions.mergeSort fun a b =>
        decide (b.createdAt ≤ a.createdAt)).take 100).length ≤ 100
    simp [List.length_take]
